import Mathlib

/-
  Verification of the Cajita HYPRE structured-solver adapter
  (src/cajita/src/Cajita_HypreStructuredSolver.hpp).

  The header is glue around the external HYPRE library: it reorders index
  spaces from IJK to KJI, stages data between device arrays and HYPRE
  vectors, translates stencil/grid metadata, and dispatches on a solver
  name.  The embedding below models the solver objects as explicit state
  records and models every call the wrapper makes into HYPRE as an entry
  of an emitted call trace.  External HYPRE calls themselves are assumed
  to succeed (return code 0); the wrapper's own error checking of HYPRE
  return codes is modelled separately by `checkHypreError`.
-/

namespace Cajita

/-- C++ exception kinds thrown by the header: `std::logic_error` and
`std::runtime_error`, carrying their message. -/
inductive CppError where
  | logicError (msg : String)
  | runtimeError (msg : String)
deriving DecidableEq, Repr

/-- The seven concrete solver classes of the header. -/
inductive SolverKind where
  | PCG
  | GMRES
  | BiCGSTAB
  | PFMG
  | SMG
  | Jacobi
  | Diagonal
deriving DecidableEq, Repr

/-- Identifies the two HYPRE vectors owned by a solver: `_b` (right-hand
side / forcing term) and `_x` (solution). -/
inductive VecId where
  | rhs
  | lhs
deriving DecidableEq, Repr

/-- One call made by the wrapper into the HYPRE library.  Payloads are
recorded where a claim inspects them (grid extents, periodicity, stencil
elements, symmetry flag); bulk numeric payloads of vector/matrix value
transfers are tracked through the array model instead. -/
inductive HypreCall where
  | gridCreate (dim : Nat)
  | gridSetExtents (lower upper : List Int)
  | gridSetPeriodic (periodic : List Int)
  | gridAssemble
  | vectorCreate (v : VecId)
  | vectorInitialize (v : VecId)
  | vectorSetBoxValues (v : VecId)
  | vectorAssemble (v : VecId)
  | vectorGetBoxValues (v : VecId)
  | stencilCreate (dim size : Nat)
  | stencilSetElement (idx : Nat) (offset : List Int)
  | matrixCreate
  | matrixSetSymmetric (is_symmetric : Bool)
  | matrixInitialize
  | matrixSetBoxValues
  | matrixAssemble
  | solverCreate (k : SolverKind)
  | solverSetZeroGuess (k : SolverKind)
  | solverSetPrecond (outer inner : SolverKind)
  | solverSetup (k : SolverKind)
  | solverSolve (k : SolverKind)
deriving DecidableEq, Repr

/-- `HypreStructuredSolver::checkHypreError` (lines 449-461): throws
`std::runtime_error` when the HYPRE return code is positive, after
formatting the code together with the description HYPRE produces for it
(`HYPRE_DescribeError` fills `error_msg`; that external output is taken
here as the argument `error_msg`).  Non-positive codes return normally. -/
def checkHypreError (error : Int) (error_msg : String) : Except CppError Unit :=
  if error > 0 then
    .error (.runtimeError
      ("HYPRE structured solver error: " ++ toString error ++ " " ++ error_msg))
  else
    .ok ()

/-- The slice of a Cajita `ArrayLayout` the solver constructor reads:
the owned global index space (`layout.indexSpace(Own(), Global())`,
with `min d` the first owned index and `max d` the past-the-end bound
in dimension `d`), and the global grid's periodicity and global entity
count per dimension for the solver's entity type
(`globalGrid().isPeriodic(d)`, `globalGrid().globalNumEntity(EntityType(), d)`). -/
structure ArrayLayout (n : Nat) where
  ownGlobalMin : Fin n → Int
  ownGlobalMax : Fin n → Int
  isPeriodic : Fin n → Bool
  globalNumEntity : Fin n → Int

/-- The reversed dimension index `num_space_dim - d - 1` used by the
constructor to reorder IJK data to HYPRE's KJI convention. -/
def revDim (n : Nat) (d : Fin n) : Fin n :=
  ⟨n - d.val - 1, by have := d.isLt; omega⟩

/-- `_lower` as filled by the constructor loop (lines 92-98): slot `d`
receives `global_space.min(num_space_dim - d - 1)`. -/
def ctorLower {n : Nat} (layout : ArrayLayout n) : List Int :=
  List.ofFn (fun d : Fin n => layout.ownGlobalMin (revDim n d))

/-- `_upper` as filled by the constructor loop (lines 92-98): slot `d`
receives `global_space.max(num_space_dim - d - 1) - 1`, an inclusive
last index rather than a past-the-end bound. -/
def ctorUpper {n : Nat} (layout : ArrayLayout n) : List Int :=
  List.ofFn (fun d : Fin n => layout.ownGlobalMax (revDim n d) - 1)

/-- `periodic` as filled by the constructor loop (lines 105-111).  The
C++ loop iterates `d` and writes slot `num_space_dim - 1 - d`; since
that map is a bijection on the slots, the array is equivalently given
slot-wise: slot `e` holds the value computed for dimension
`num_space_dim - 1 - e` (the unique iteration targeting slot `e`). -/
def ctorPeriodic {n : Nat} (layout : ArrayLayout n) : List Int :=
  List.ofFn (fun e : Fin n =>
    if layout.isPeriodic (revDim n e) then layout.globalNumEntity (revDim n e)
    else 0)

/-- What `setPreconditioner` reads off the shared pointer it is handed:
the class of the pointee and its `_is_preconditioner` flag (queried via
`isPreconditioner()`). -/
structure PrecondRef where
  kind : SolverKind
  is_preconditioner : Bool
deriving DecidableEq, Repr

/-- The observable state of a `HypreStructuredSolver`.  `lower`, `upper`
and `periodic` mirror the members `_lower`/`_upper` and the periodicity
registered with the grid; they stay empty for preconditioners, whose
constructor builds no data structures (line 75).  `stencil_size` is
`none` while the C++ member `_stencil_size` is still uninitialized. -/
structure Solver where
  kind : SolverKind
  is_preconditioner : Bool
  lower : List Int
  upper : List Int
  periodic : List Int
  stencil_size : Option Nat
  stencil_elements : List (List Int)
  matrix_symmetric : Option Bool
  preconditioner : Option PrecondRef
deriving DecidableEq, Repr

/-- HYPRE calls issued by the base-class constructor when
`is_preconditioner` is false (lines 75-151): grid creation and setup
followed by allocation and zero-initialization of the `_b` and `_x`
vectors. -/
def ctorGridCalls (n : Nat) {m : Nat} (layout : ArrayLayout m) : List HypreCall :=
  [ .gridCreate n
  , .gridSetExtents (ctorLower layout) (ctorUpper layout)
  , .gridSetPeriodic (ctorPeriodic layout)
  , .gridAssemble
  , .vectorCreate .rhs, .vectorInitialize .rhs
  , .vectorSetBoxValues .rhs, .vectorAssemble .rhs
  , .vectorCreate .lhs, .vectorInitialize .lhs
  , .vectorSetBoxValues .lhs, .vectorAssemble .lhs ]

/-- The base-class constructor `HypreStructuredSolver::HypreStructuredSolver`
(lines 58-152): stores the `is_preconditioner` flag and, only when it is
false, creates and assembles the HYPRE grid (extents reordered KJI) and
the two vectors.  Returns the constructed state and the emitted calls. -/
def baseCtor (n : Nat) (layout : ArrayLayout n) (k : SolverKind)
    (is_preconditioner : Bool) : Solver × List HypreCall :=
  if is_preconditioner then
    ({ kind := k, is_preconditioner := true, lower := [], upper := []
     , periodic := [], stencil_size := none, stencil_elements := []
     , matrix_symmetric := none, preconditioner := none }, [])
  else
    ({ kind := k, is_preconditioner := false, lower := ctorLower layout
     , upper := ctorUpper layout, periodic := ctorPeriodic layout
     , stencil_size := none, stencil_elements := []
     , matrix_symmetric := none, preconditioner := none },
     ctorGridCalls n layout)

/-- The body of each derived-class constructor, run after the base
constructor: PCG/GMRES/BiCGSTAB refuse to be preconditioners (throwing
before creating their HYPRE solver); PFMG/SMG/Jacobi always create
their solver and set a zero initial guess when used as preconditioner;
Diagonal refuses to be an outer solver and owns no HYPRE object. -/
def derivedCtor (k : SolverKind) (is_preconditioner : Bool) :
    Except CppError Unit × List HypreCall :=
  match k with
  | .PCG =>
      if is_preconditioner then
        (.error (.logicError "HYPRE PCG cannot be used as a preconditioner"), [])
      else (.ok (), [.solverCreate .PCG])
  | .GMRES =>
      if is_preconditioner then
        (.error (.logicError "HYPRE GMRES cannot be used as a preconditioner"), [])
      else (.ok (), [.solverCreate .GMRES])
  | .BiCGSTAB =>
      if is_preconditioner then
        (.error (.logicError "HYPRE BiCGSTAB cannot be used as a preconditioner"), [])
      else (.ok (), [.solverCreate .BiCGSTAB])
  | .PFMG =>
      (.ok (), [.solverCreate .PFMG]
        ++ (if is_preconditioner then [.solverSetZeroGuess .PFMG] else []))
  | .SMG =>
      (.ok (), [.solverCreate .SMG]
        ++ (if is_preconditioner then [.solverSetZeroGuess .SMG] else []))
  | .Jacobi =>
      (.ok (), [.solverCreate .Jacobi]
        ++ (if is_preconditioner then [.solverSetZeroGuess .Jacobi] else []))
  | .Diagonal =>
      if !is_preconditioner then
        (.error (.logicError "Diagonal preconditioner cannot be used as a solver"), [])
      else (.ok (), [])

/-- Full construction of a solver of class `k`: base constructor first,
then the derived constructor body.  If the derived body throws, the
exception propagates out of `std::make_shared` and no object is
returned, but the HYPRE calls already made have happened. -/
def buildSolver (n : Nat) (layout : ArrayLayout n) (k : SolverKind)
    (is_preconditioner : Bool) : Except CppError Solver × List HypreCall :=
  let base := baseCtor n layout k is_preconditioner
  match derivedCtor k is_preconditioner with
  | (.ok _, extra) => (.ok base.1, base.2 ++ extra)
  | (.error e, extra) => (.error e, base.2 ++ extra)

/-- The factory `createHypreStructuredSolver` (lines 1452-1485): an
if/else-if chain on the solver name, ending in
`throw std::runtime_error("Invalid solver type")`. -/
def createHypreStructuredSolver (n : Nat) (solver_type : String)
    (layout : ArrayLayout n) (is_preconditioner : Bool) :
    Except CppError Solver × List HypreCall :=
  if solver_type = "PCG" then buildSolver n layout .PCG is_preconditioner
  else if solver_type = "GMRES" then buildSolver n layout .GMRES is_preconditioner
  else if solver_type = "BiCGSTAB" then buildSolver n layout .BiCGSTAB is_preconditioner
  else if solver_type = "PFMG" then buildSolver n layout .PFMG is_preconditioner
  else if solver_type = "SMG" then buildSolver n layout .SMG is_preconditioner
  else if solver_type = "Jacobi" then buildSolver n layout .Jacobi is_preconditioner
  else if solver_type = "Diagonal" then buildSolver n layout .Diagonal is_preconditioner
  else (.error (.runtimeError "Invalid solver type"), [])

/-- The factory name recognized for each solver class (specification
side: used only to state which class matches which name). -/
def kindName : SolverKind → String
  | .PCG => "PCG"
  | .GMRES => "GMRES"
  | .BiCGSTAB => "BiCGSTAB"
  | .PFMG => "PFMG"
  | .SMG => "SMG"
  | .Jacobi => "Jacobi"
  | .Diagonal => "Diagonal"

/-- The solver class matching a name, if any (specification side). -/
def nameKind (solver_type : String) : Option SolverKind :=
  if solver_type = "PCG" then some .PCG
  else if solver_type = "GMRES" then some .GMRES
  else if solver_type = "BiCGSTAB" then some .BiCGSTAB
  else if solver_type = "PFMG" then some .PFMG
  else if solver_type = "SMG" then some .SMG
  else if solver_type = "Jacobi" then some .Jacobi
  else if solver_type = "Diagonal" then some .Diagonal
  else none

/-- Result of a member-function call on a solver object: the exception
thrown (if any), the object state after the call (C++ objects keep
mutations made before a throw), and the HYPRE calls emitted. -/
structure StepResult where
  thrown : Option CppError
  state : Solver
  calls : List HypreCall
deriving DecidableEq, Repr

/-- The HYPRE stencil-element registration loop of `setMatrixStencil`
(lines 195-201): for `i = 0, 1, ...` in order, copy stencil entry `i`
into the offset buffer and call `HYPRE_StructStencilSetElement`. -/
def registerStencilCalls (stencil : List (List Int)) : List HypreCall :=
  (List.range stencil.length).foldl
    (fun acc i => acc ++ [.stencilSetElement i (stencil.getD i [])]) []

/-- `HypreStructuredSolver::setMatrixStencil` (lines 179-208): gated on
non-preconditioners, records the stencil size, registers every stencil
element in input order, then creates the matrix over the grid and sets
its symmetry flag. -/
def setMatrixStencil (n : Nat) (s : Solver) (stencil : List (List Int))
    (is_symmetric : Bool) : StepResult :=
  if s.is_preconditioner then
    ⟨some (.logicError "Cannot call setMatrixStencil() on preconditioners"), s, []⟩
  else
    ⟨none,
     { s with stencil_size := some stencil.length
            , stencil_elements := stencil
            , matrix_symmetric := some is_symmetric },
     [.stencilCreate n stencil.length] ++ registerStencilCalls stencil
       ++ [.matrixCreate, .matrixSetSymmetric is_symmetric]⟩

/-- The slice of a Cajita `Array` the solve/value paths read: the number
of degrees of freedom per entity reported by its layout, and its data
viewed as a function over local (owned plus ghost) indices. -/
structure CajitaArray (n : Nat) (S : Type) where
  dofsPerEntity : Int
  view : (Fin n → Int) → S

/-- `HypreStructuredSolver::setMatrixValues` (lines 218-279): gated on
non-preconditioners; throws before touching HYPRE when the array's
degrees of freedom per entity differ from `_stencil_size`; otherwise
initializes the matrix, stages the owned values to the host and inserts
them, and assembles.  Reading `_stencil_size` before `setMatrixStencil`
has run reads an uninitialized member in C++; that case is modelled as
a mismatch. -/
def setMatrixValues {n : Nat} {S : Type} (s : Solver)
    (values : CajitaArray n S) : StepResult :=
  if s.is_preconditioner then
    ⟨some (.logicError "Cannot call setMatrixValues() on preconditioners"), s, []⟩
  else if s.stencil_size.map (Int.ofNat) ≠ some values.dofsPerEntity then
    ⟨some (.runtimeError "Number of matrix values does not match stencil size"), s, []⟩
  else
    ⟨none, s, [.matrixInitialize, .matrixSetBoxValues, .matrixAssemble]⟩

/-- The virtual `setPreconditionerImpl` of each class: the Krylov
solvers install the preconditioner's setup/solve functions via
`HYPRE_Struct*SetPrecond`; PFMG, SMG, Jacobi and Diagonal throw. -/
def setPreconditionerImpl (k : SolverKind) (p : PrecondRef) :
    Except CppError HypreCall :=
  match k with
  | .PCG => .ok (.solverSetPrecond .PCG p.kind)
  | .GMRES => .ok (.solverSetPrecond .GMRES p.kind)
  | .BiCGSTAB => .ok (.solverSetPrecond .BiCGSTAB p.kind)
  | .PFMG => .error (.logicError "HYPRE PFMG solver does not support preconditioning.")
  | .SMG => .error (.logicError "HYPRE SMG solver does not support preconditioning.")
  | .Jacobi => .error (.logicError "HYPRE Jacobi solver does not support preconditioning.")
  | .Diagonal => .error (.logicError "Diagonal preconditioner does not support preconditioning.")

/-- `HypreStructuredSolver::setPreconditioner` (lines 293-309): gated on
non-preconditioners; requires the argument to be a preconditioner;
then stores it in `_preconditioner` and only afterwards invokes the
class-specific `setPreconditionerImpl` (so a throwing impl leaves the
pointer stored). -/
def setPreconditioner (s : Solver) (p : PrecondRef) : StepResult :=
  if s.is_preconditioner then
    ⟨some (.logicError "Cannot call setPreconditioner() on a preconditioner"), s, []⟩
  else if !p.is_preconditioner then
    ⟨some (.logicError "Not a preconditioner"), s, []⟩
  else
    match setPreconditionerImpl s.kind p with
    | .ok c => ⟨none, { s with preconditioner := some p }, [c]⟩
    | .error e => ⟨some e, { s with preconditioner := some p }, []⟩

/-- The virtual `setupImpl` of each class: calls the class's HYPRE setup
function; Diagonal throws. -/
def setupImpl (k : SolverKind) : Except CppError HypreCall :=
  match k with
  | .Diagonal => .error (.logicError "Diagonal preconditioner cannot be used as a solver")
  | k => .ok (.solverSetup k)

/-- `HypreStructuredSolver::setup` (lines 312-319): gated on
non-preconditioners, then dispatches to `setupImpl(_A, _b, _x)`. -/
def setup (s : Solver) : StepResult :=
  if s.is_preconditioner then
    ⟨some (.logicError "Cannot call setup() on preconditioners"), s, []⟩
  else
    match setupImpl s.kind with
    | .ok c => ⟨none, s, [c]⟩
    | .error e => ⟨some e, s, []⟩

/-- The environment a `solve` call runs in: `owned` decides membership
of a local index in the owned index space
(`b.layout()->indexSpace(Own(), Local())`); `sameSpace` is true when the
array's memory space is host-accessible, in which case
`Kokkos::create_mirror_view` returns the array's own view instead of
allocating; `mirrorJunk` is the (indeterminate) initial content of a
freshly allocated, uninitialized host mirror; `hypreX` gives the values
HYPRE leaves in the solution vector `_x`, read back over the owned box
by `HYPRE_StructVectorGetBoxValues` after `solveImpl`. -/
structure SolveEnv (n : Nat) (S : Type) where
  owned : (Fin n → Int) → Bool
  sameSpace : Bool
  mirrorJunk : (Fin n → Int) → S
  hypreX : (Fin n → Int) → S

/-- Result of `solve`: thrown exception if any, the two caller-visible
arrays after the call, and the emitted HYPRE calls. -/
structure SolveResult (n : Nat) (S : Type) where
  thrown : Option CppError
  b : CajitaArray n S
  x : CajitaArray n S
  calls : List HypreCall

/-- The virtual `solveImpl` of each class: calls the class's HYPRE solve
function; Diagonal throws. -/
def solveImpl (k : SolverKind) : Except CppError HypreCall :=
  match k with
  | .Diagonal => .error (.logicError "Diagonal preconditioner cannot be used as a solver")
  | k => .ok (.solverSolve k)

/-- `HypreStructuredSolver::solve` (lines 326-401): gated on
non-preconditioners; requires both arrays to have one degree of freedom
per entity; stages `b`'s owned values through a host mirror into the
HYPRE right-hand side (`b` is only read); runs `solveImpl`; reads the
solution over the owned box; writes it into the owned subview of a host
mirror of `x` obtained from `Kokkos::create_mirror_view` (which aliases
`x` when the memory space is host-accessible and is a fresh
uninitialized allocation otherwise); and finally deep-copies the whole
mirror - owned and ghost entries alike - back over `x`. -/
def solve {n : Nat} {S : Type} (s : Solver) (env : SolveEnv n S)
    (b x : CajitaArray n S) : SolveResult n S :=
  if s.is_preconditioner then
    ⟨some (.logicError "Cannot call solve() on preconditioners"), b, x, []⟩
  else if b.dofsPerEntity ≠ 1 ∨ x.dofsPerEntity ≠ 1 then
    ⟨some (.runtimeError "Structured solver only for scalar fields"), b, x, []⟩
  else
    let staging : List HypreCall :=
      [.vectorInitialize .rhs, .vectorSetBoxValues .rhs, .vectorAssemble .rhs]
    match solveImpl s.kind with
    | .error e => ⟨some e, b, x, staging⟩
    | .ok c =>
      let x_mirror : (Fin n → Int) → S :=
        fun i => if env.sameSpace then x.view i else env.mirrorJunk i
      let x_after : (Fin n → Int) → S :=
        fun i => if env.owned i then env.hypreX i else x_mirror i
      ⟨none, b, { x with view := x_after }, staging ++ [c, .vectorGetBoxValues .lhs]⟩

/-
  Concrete example data used by witnesses and counterexamples.
-/

/-- A concrete 3-dimensional array layout: owned global index space
[2,6) in dimension 0, [1,5) in dimension 1, [0,4) in dimension 2,
periodic only in dimension 1 with 8 global entities per dimension. -/
def exLayout : ArrayLayout 3 where
  ownGlobalMin := fun d => if d.val = 0 then 2 else if d.val = 1 then 1 else 0
  ownGlobalMax := fun d => if d.val = 0 then 6 else if d.val = 1 then 5 else 4
  isPeriodic := fun d => d.val = 1
  globalNumEntity := fun _ => 8

/-- A second concrete layout, 2-dimensional and fully periodic. -/
def exLayout2 : ArrayLayout 2 where
  ownGlobalMin := fun _ => 0
  ownGlobalMax := fun d => if d.val = 0 then 3 else 5
  isPeriodic := fun _ => true
  globalNumEntity := fun d => if d.val = 0 then 3 else 5

/-- A concrete non-preconditioner PCG solver state, as produced by the
factory at `exLayout`. -/
def exPCG : Solver :=
  { kind := .PCG, is_preconditioner := false
  , lower := ctorLower exLayout, upper := ctorUpper exLayout
  , periodic := ctorPeriodic exLayout
  , stencil_size := none, stencil_elements := []
  , matrix_symmetric := none, preconditioner := none }

/-- A concrete non-preconditioner PFMG solver state. -/
def exPFMG : Solver :=
  { exPCG with kind := .PFMG }

/-- A concrete solver state constructed as a preconditioner. -/
def exPrecond : Solver :=
  { kind := .PFMG, is_preconditioner := true
  , lower := [], upper := [], periodic := []
  , stencil_size := none, stencil_elements := []
  , matrix_symmetric := none, preconditioner := none }

/-- A reference to a Diagonal solver built as a preconditioner. -/
def exDiagRef : PrecondRef := { kind := .Diagonal, is_preconditioner := true }

/-- A reference to a solver that is not a preconditioner. -/
def exOuterRef : PrecondRef := { kind := .PFMG, is_preconditioner := false }

/-- A concrete non-preconditioner PCG state with a stencil of size 3
already set. -/
def exPCGStencil : Solver :=
  { exPCG with stencil_size := some 3 }

/-- A concrete 1-dimensional scalar array (one degree of freedom per
entity) holding 3 everywhere. -/
def exArrB : CajitaArray 1 Int := { dofsPerEntity := 1, view := fun _ => 3 }

/-- A concrete 1-dimensional scalar array holding 5 everywhere. -/
def exArrX : CajitaArray 1 Int := { dofsPerEntity := 1, view := fun _ => 5 }

/-- A concrete array with 2 degrees of freedom per entity. -/
def exArrDof2 : CajitaArray 1 Int := { dofsPerEntity := 2, view := fun _ => 0 }

/-- A concrete solve environment over a 1-dimensional grid whose owned
index space is {0, 1}: the memory space is not host-accessible (a fresh
uninitialized host mirror is allocated, modelled as holding 99), and
HYPRE's solution is 7 at every owned point. -/
def exEnvDevice : SolveEnv 1 Int where
  owned := fun i => decide (0 ≤ i ⟨0, by omega⟩ ∧ i ⟨0, by omega⟩ < 2)
  sameSpace := false
  mirrorJunk := fun _ => 99
  hypreX := fun _ => 7

/-- The same environment for a host-accessible memory space, where the
mirror aliases the array itself. -/
def exEnvHost : SolveEnv 1 Int :=
  { exEnvDevice with sameSpace := true }

/-- A concrete ghost index of the 1-dimensional grid: local index 2,
outside the owned index space {0, 1} of `exEnvDevice`. -/
def exGhostIdx : Fin 1 → Int := fun _ => 2

/-
  General lemmas about the embedding.
-/

/-- Folding call-appends over a list produces the mapped list: the
stencil registration loop emits exactly one `stencilSetElement` per
index, in order. -/
theorem foldl_append_singleton_eq_map {α β : Type} (f : α → β) :
    ∀ (l : List α) (acc : List β),
      l.foldl (fun a i => a ++ [f i]) acc = acc ++ l.map f := by
  intro l
  induction l with
  | nil => intro acc; simp
  | cons hd tl ih => intro acc; simp [List.foldl_cons, ih]

/-- `registerStencilCalls` in closed form. -/
theorem registerStencilCalls_eq_map (stencil : List (List Int)) :
    registerStencilCalls stencil =
      (List.range stencil.length).map
        (fun i => HypreCall.stencilSetElement i (stencil.getD i [])) := by
  unfold registerStencilCalls
  rw [foldl_append_singleton_eq_map]
  simp

/-
  C9: checkHypreError error condition.
-/

/-- C9: `checkHypreError` throws `std::runtime_error` if and only if the
HYPRE return code is strictly positive; every code less than or equal to
zero (negative codes included) returns normally. -/
theorem checkHypreError_pos_iff (e : Int) (msg : String) :
    (0 < e →
      checkHypreError e msg =
        .error (.runtimeError
          ("HYPRE structured solver error: " ++ toString e ++ " " ++ msg))) ∧
    (e ≤ 0 → checkHypreError e msg = .ok ()) := by
  constructor
  · intro h
    unfold checkHypreError
    rw [if_pos h]
  · intro h
    unfold checkHypreError
    rw [if_neg (by omega)]

/-- Witness for C9: code 4 throws, codes 0 and -2 return normally. -/
theorem checkHypreError_pos_iff_witness :
    checkHypreError 4 "generic" =
      .error (.runtimeError
        ("HYPRE structured solver error: " ++ toString (4 : Int) ++ " " ++ "generic")) ∧
    checkHypreError 0 "generic" = .ok () ∧
    checkHypreError (-2) "generic" = .ok () :=
  ⟨(checkHypreError_pos_iff 4 "generic").1 (by decide),
   (checkHypreError_pos_iff 0 "generic").2 (by decide),
   (checkHypreError_pos_iff (-2) "generic").2 (by decide)⟩

/-
  C10: shape validation before touching HYPRE state.
-/

/-- C10: on a non-preconditioner solver, `setMatrixValues` throws
`std::runtime_error` whenever the values array's degrees of freedom per
entity differ from the previously set stencil size, and `solve` throws
`std::runtime_error` whenever `b` or `x` has degrees of freedom per
entity different from 1; in both error cases no HYPRE call is made
(emitted call list empty) and the solver state and arrays are
unchanged. -/
theorem shape_validation_guards {n : Nat} {S : Type} (s : Solver) (sz : Nat)
    (values b x : CajitaArray n S) (env : SolveEnv n S)
    (hs : s.is_preconditioner = false) :
    (s.stencil_size = some sz → values.dofsPerEntity ≠ (sz : Int) →
      setMatrixValues s values =
        ⟨some (.runtimeError "Number of matrix values does not match stencil size"),
         s, []⟩) ∧
    (b.dofsPerEntity ≠ 1 ∨ x.dofsPerEntity ≠ 1 →
      solve s env b x =
        ⟨some (.runtimeError "Structured solver only for scalar fields"), b, x, []⟩) := by
  constructor
  · intro hsz hdof
    unfold setMatrixValues
    rw [if_neg (by rw [hs]; exact Bool.false_ne_true)]
    rw [if_pos (by rw [hsz]; simpa using fun h => hdof h.symm)]
  · intro hdof
    unfold solve
    rw [if_neg (by rw [hs]; exact Bool.false_ne_true)]
    rw [if_pos hdof]

/-- Witness for C10: a PCG solver with stencil size 3 rejects a
2-dof-per-entity values array, and `solve` rejects a 2-dof array as
right-hand side; both without emitting any HYPRE call. -/
theorem shape_validation_guards_witness :
    setMatrixValues exPCGStencil exArrDof2 =
      ⟨some (.runtimeError "Number of matrix values does not match stencil size"),
       exPCGStencil, []⟩ ∧
    solve exPCGStencil exEnvDevice exArrDof2 exArrX =
      ⟨some (.runtimeError "Structured solver only for scalar fields"),
       exArrDof2, exArrX, []⟩ :=
  ⟨(shape_validation_guards exPCGStencil 3 exArrDof2 exArrDof2 exArrX exEnvDevice
      rfl).1 rfl (by decide),
   (shape_validation_guards exPCGStencil 3 exArrDof2 exArrDof2 exArrX exEnvDevice
      rfl).2 (Or.inl (by decide))⟩

/-
  C8: gating of member functions on the is_preconditioner flag.
-/

/-- C8: on a solver constructed with `is_preconditioner = true`, each of
`setMatrixStencil`, `setMatrixValues`, `setPreconditioner`, `setup` and
`solve` throws `std::logic_error` before performing any HYPRE call
(emitted call list empty) and leaves the solver state unchanged; on a
solver with `is_preconditioner = false`, none of these operations throws
that gating error. -/
theorem precondGating {n : Nat} {S : Type} (s : Solver)
    (stencil : List (List Int)) (sym : Bool) (values : CajitaArray n S)
    (p : PrecondRef) (env : SolveEnv n S) (b x : CajitaArray n S) :
    (s.is_preconditioner = true →
      setMatrixStencil n s stencil sym =
        ⟨some (.logicError "Cannot call setMatrixStencil() on preconditioners"), s, []⟩ ∧
      setMatrixValues s values =
        ⟨some (.logicError "Cannot call setMatrixValues() on preconditioners"), s, []⟩ ∧
      setPreconditioner s p =
        ⟨some (.logicError "Cannot call setPreconditioner() on a preconditioner"), s, []⟩ ∧
      setup s =
        ⟨some (.logicError "Cannot call setup() on preconditioners"), s, []⟩ ∧
      solve s env b x =
        ⟨some (.logicError "Cannot call solve() on preconditioners"), b, x, []⟩) ∧
    (s.is_preconditioner = false →
      (setMatrixStencil n s stencil sym).thrown ≠
        some (.logicError "Cannot call setMatrixStencil() on preconditioners") ∧
      (setMatrixValues s values).thrown ≠
        some (.logicError "Cannot call setMatrixValues() on preconditioners") ∧
      (setPreconditioner s p).thrown ≠
        some (.logicError "Cannot call setPreconditioner() on a preconditioner") ∧
      (setup s).thrown ≠
        some (.logicError "Cannot call setup() on preconditioners") ∧
      (solve s env b x).thrown ≠
        some (.logicError "Cannot call solve() on preconditioners")) := by
  constructor
  · intro h
    refine ⟨?_, ?_, ?_, ?_, ?_⟩ <;>
      simp [setMatrixStencil, setMatrixValues, setPreconditioner, setup, solve, h]
  · intro h
    refine ⟨?_, ?_, ?_, ?_, ?_⟩
    · simp [setMatrixStencil, h]
    · unfold setMatrixValues
      rw [if_neg (by rw [h]; exact Bool.false_ne_true)]
      split <;> simp
    · unfold setPreconditioner
      rw [if_neg (by rw [h]; exact Bool.false_ne_true)]
      split
      · simp
      · cases hk : s.kind <;> simp [setPreconditionerImpl, hk]
    · unfold setup
      rw [if_neg (by rw [h]; exact Bool.false_ne_true)]
      cases hk : s.kind <;> simp [setupImpl, hk]
    · unfold solve
      rw [if_neg (by rw [h]; exact Bool.false_ne_true)]
      split
      · simp
      · cases hk : s.kind <;> simp [solveImpl, hk]

/-- Witness for C8: `setup` on a solver constructed as a preconditioner
throws the gating error with no HYPRE call, and `setup` on a
non-preconditioner PCG solver does not throw it. -/
theorem precondGating_witness :
    setup exPrecond =
      ⟨some (.logicError "Cannot call setup() on preconditioners"), exPrecond, []⟩ ∧
    (setup exPCG).thrown ≠
      some (.logicError "Cannot call setup() on preconditioners") :=
  ⟨((@precondGating 1 Int exPrecond [] false exArrB exDiagRef
      exEnvDevice exArrB exArrX).1 rfl).2.2.2.1,
   ((@precondGating 1 Int exPCG [] false exArrB exDiagRef
      exEnvDevice exArrB exArrX).2 rfl).2.2.2.1⟩

/-
  C3, C4: KJI reordering of grid extents and periodicity.
-/

/-- C3: for every non-preconditioner solver, the constructor registers
the HYPRE grid extents in reversed (KJI) dimension order: position `d`
of the lower bound holds the owned global index-space minimum of
dimension `num_space_dim - d - 1`, and position `d` of the upper bound
holds the owned global index-space maximum of dimension
`num_space_dim - d - 1` minus one (an inclusive last index). -/
theorem ctor_extents_reversed {n : Nat} (k : SolverKind)
    (layout : ArrayLayout n) (d : Nat) (hd : d < n) :
    HypreCall.gridSetExtents (ctorLower layout) (ctorUpper layout)
        ∈ (baseCtor n layout k false).2 ∧
    (ctorLower layout)[d]? =
      some (layout.ownGlobalMin ⟨n - d - 1, by omega⟩) ∧
    (ctorUpper layout)[d]? =
      some (layout.ownGlobalMax ⟨n - d - 1, by omega⟩ - 1) := by
  refine ⟨?_, ?_, ?_⟩
  · simp [baseCtor, ctorGridCalls]
  · unfold ctorLower
    rw [List.getElem?_ofFn]
    simp only [List.ofFnNthVal, hd, dif_pos]
    rfl
  · unfold ctorUpper
    rw [List.getElem?_ofFn]
    simp only [List.ofFnNthVal, hd, dif_pos]
    rfl

/-- Witness for C3: at the concrete layout `exLayout` (3 spatial
dimensions, owned global space [2,6)x[1,5)x[0,4)), the constructor
registers lower bound position 0 as dimension 2's minimum (0) and upper
bound position 0 as dimension 2's maximum minus one (3). -/
theorem ctor_extents_reversed_witness :
    HypreCall.gridSetExtents (ctorLower exLayout) (ctorUpper exLayout)
        ∈ (baseCtor 3 exLayout .PCG false).2 ∧
    (ctorLower exLayout)[0]? = some (exLayout.ownGlobalMin ⟨2, by omega⟩) ∧
    (ctorUpper exLayout)[0]? = some (exLayout.ownGlobalMax ⟨2, by omega⟩ - 1) :=
  ctor_extents_reversed .PCG exLayout 0 (by omega)

/-- C4: for every non-preconditioner solver, the constructor registers
periodicity with HYPRE in reversed (KJI) dimension order: position
`num_space_dim - 1 - d` of the periodic array holds the global number
of entities of the solver's entity type in dimension `d` when the
global grid is periodic in `d`, and 0 otherwise. -/
theorem ctor_periodic_reversed {n : Nat} (k : SolverKind)
    (layout : ArrayLayout n) (d : Nat) (hd : d < n) :
    HypreCall.gridSetPeriodic (ctorPeriodic layout)
        ∈ (baseCtor n layout k false).2 ∧
    (ctorPeriodic layout)[n - 1 - d]? =
      some (if layout.isPeriodic ⟨d, hd⟩ then layout.globalNumEntity ⟨d, hd⟩
            else 0) := by
  refine ⟨?_, ?_⟩
  · simp [baseCtor, ctorGridCalls]
  · unfold ctorPeriodic
    rw [List.getElem?_ofFn]
    have h1 : n - 1 - d < n := by omega
    simp only [List.ofFnNthVal, h1, dif_pos]
    have h2 : revDim n ⟨n - 1 - d, h1⟩ = ⟨d, hd⟩ := by
      apply Fin.ext
      simp only [revDim]
      omega
    rw [h2]

/-- Witness for C4: at `exLayout` (periodic only in dimension 1, with 8
global entities), the periodic array holds 8 at position
`3 - 1 - 1 = 1` for the periodic dimension 1, and 0 at position
`3 - 1 - 0 = 2` for the non-periodic dimension 0. -/
theorem ctor_periodic_reversed_witness :
    ((ctorPeriodic exLayout)[3 - 1 - 1]? =
      some (if exLayout.isPeriodic ⟨1, by omega⟩
            then exLayout.globalNumEntity ⟨1, by omega⟩ else 0)) ∧
    ((ctorPeriodic exLayout)[3 - 1 - 0]? =
      some (if exLayout.isPeriodic ⟨0, by omega⟩
            then exLayout.globalNumEntity ⟨0, by omega⟩ else 0)) ∧
    (ctorPeriodic exLayout)[1]? = some 8 ∧
    (ctorPeriodic exLayout)[2]? = some 0 :=
  ⟨(ctor_periodic_reversed .PCG exLayout 1 (by omega)).2,
   (ctor_periodic_reversed .PCG exLayout 0 (by omega)).2,
   by decide, by decide⟩

/-
  C5: stencil registration.
-/

/-- C5: on a non-preconditioner solver, `setMatrixStencil` records the
stencil size as the input vector's length, registers stencil element
`i` with HYPRE with offset equal to the `i`-th input entry for every
`i` from 0 to size-1 in increasing order (the registration occupies
trace positions 1 through size, preserving input order), then creates
the matrix and sets its symmetry flag to `is_symmetric`. -/
theorem setMatrixStencil_registers_in_order (n : Nat) (s : Solver)
    (stencil : List (List Int)) (is_symmetric : Bool)
    (h : s.is_preconditioner = false) :
    (setMatrixStencil n s stencil is_symmetric).thrown = none ∧
    (setMatrixStencil n s stencil is_symmetric).state =
      { s with stencil_size := some stencil.length
             , stencil_elements := stencil
             , matrix_symmetric := some is_symmetric } ∧
    (setMatrixStencil n s stencil is_symmetric).calls =
      [HypreCall.stencilCreate n stencil.length] ++ registerStencilCalls stencil
        ++ [HypreCall.matrixCreate, HypreCall.matrixSetSymmetric is_symmetric] ∧
    (∀ i, i < stencil.length →
      (setMatrixStencil n s stencil is_symmetric).calls[1 + i]? =
        some (HypreCall.stencilSetElement i (stencil.getD i []))) := by
  have hms : setMatrixStencil n s stencil is_symmetric =
      ⟨none,
       { s with stencil_size := some stencil.length
              , stencil_elements := stencil
              , matrix_symmetric := some is_symmetric },
       [HypreCall.stencilCreate n stencil.length] ++ registerStencilCalls stencil
         ++ [HypreCall.matrixCreate, HypreCall.matrixSetSymmetric is_symmetric]⟩ := by
    unfold setMatrixStencil
    rw [if_neg (by rw [h]; exact Bool.false_ne_true)]
  refine ⟨by rw [hms], by rw [hms], by rw [hms], ?_⟩
  intro i hi
  rw [hms]
  show (HypreCall.stencilCreate n stencil.length ::
    (registerStencilCalls stencil ++
      [HypreCall.matrixCreate, HypreCall.matrixSetSymmetric is_symmetric]))[1 + i]?
    = some (HypreCall.stencilSetElement i (stencil.getD i []))
  rw [Nat.add_comm 1 i, List.getElem?_cons_succ]
  rw [List.getElem?_append_left
    (by rw [registerStencilCalls_eq_map]; simpa using hi)]
  rw [registerStencilCalls_eq_map, List.getElem?_map, List.getElem?_range hi]
  rfl

/-- Witness for C5: registering the concrete 2-element stencil
[[0,0,0],[1,0,0]] on the non-preconditioner solver `exPCG` records size
2 and puts element 0 with offset [0,0,0] at trace position 1 and
element 1 with offset [1,0,0] at trace position 2. -/
theorem setMatrixStencil_registers_in_order_witness :
    (setMatrixStencil 3 exPCG [[0, 0, 0], [1, 0, 0]] false).thrown = none ∧
    (setMatrixStencil 3 exPCG [[0, 0, 0], [1, 0, 0]] false).state.stencil_size =
      some 2 ∧
    (setMatrixStencil 3 exPCG [[0, 0, 0], [1, 0, 0]] false).calls[1]? =
      some (HypreCall.stencilSetElement 0 [0, 0, 0]) ∧
    (setMatrixStencil 3 exPCG [[0, 0, 0], [1, 0, 0]] false).calls[2]? =
      some (HypreCall.stencilSetElement 1 [1, 0, 0]) :=
  ⟨(setMatrixStencil_registers_in_order 3 exPCG [[0, 0, 0], [1, 0, 0]] false
      rfl).1,
   by rw [(setMatrixStencil_registers_in_order 3 exPCG [[0, 0, 0], [1, 0, 0]]
      false rfl).2.1]; rfl,
   (setMatrixStencil_registers_in_order 3 exPCG [[0, 0, 0], [1, 0, 0]] false
      rfl).2.2.2 0 (by decide),
   (setMatrixStencil_registers_in_order 3 exPCG [[0, 0, 0], [1, 0, 0]] false
      rfl).2.2.2 1 (by decide)⟩

/-
  C1, C2: the factory dispatch.
-/

/-- The base constructor gives the object the requested class and
preconditioner flag regardless of the flag's value. -/
theorem baseCtor_fields {n : Nat} (layout : ArrayLayout n) (k : SolverKind)
    (p : Bool) :
    (baseCtor n layout k p).1.kind = k ∧
    (baseCtor n layout k p).1.is_preconditioner = p := by
  unfold baseCtor
  cases p <;> simp

/-- Building a solver of class `k` succeeds exactly when the derived
constructor body does, and then yields an object of class `k`;
a throwing derived constructor propagates its exception. -/
theorem buildSolver_spec {n : Nat} (layout : ArrayLayout n) (k : SolverKind)
    (p : Bool) :
    ((derivedCtor k p).1 = .ok () →
      ∃ s, (buildSolver n layout k p).1 = .ok s ∧ s.kind = k ∧
           s.is_preconditioner = p) ∧
    (∀ e, (derivedCtor k p).1 = .error e →
      (buildSolver n layout k p).1 = .error e) := by
  unfold buildSolver
  rcases hd : derivedCtor k p with ⟨res, extra⟩
  cases res with
  | ok u =>
    refine ⟨fun _ => ⟨(baseCtor n layout k p).1, rfl,
      (baseCtor_fields layout k p).1, (baseCtor_fields layout k p).2⟩,
      fun e he => ?_⟩
    simp at he
  | error e0 =>
    refine ⟨fun hok => ?_, fun e he => ?_⟩
    · simp at hok
    · simp only [Except.error.injEq] at he
      simp [he]

/-- C1 (amended): for every string not among the seven names the
factory throws `std::runtime_error("Invalid solver type")`; for each of
the seven names it dispatches to the builder of the matching class,
which returns a solver of that class exactly when the class's
preconditioner-role check passes (PCG, GMRES and BiCGSTAB refuse
`is_preconditioner = true`, Diagonal refuses
`is_preconditioner = false`, PFMG, SMG and Jacobi accept both), and
otherwise the class constructor's `std::logic_error` propagates. -/
theorem createHypreStructuredSolver_dispatch {n : Nat} (solver_type : String)
    (layout : ArrayLayout n) (p : Bool) :
    (nameKind solver_type = none →
      (createHypreStructuredSolver n solver_type layout p).1 =
        .error (.runtimeError "Invalid solver type")) ∧
    (∀ k, nameKind solver_type = some k →
      ((derivedCtor k p).1 = .ok () →
        ∃ s, (createHypreStructuredSolver n solver_type layout p).1 = .ok s ∧
             s.kind = k ∧ s.is_preconditioner = p) ∧
      (∀ e, (derivedCtor k p).1 = .error e →
        (createHypreStructuredSolver n solver_type layout p).1 = .error e)) := by
  constructor
  · intro hk
    unfold nameKind at hk
    unfold createHypreStructuredSolver
    split_ifs at hk with h1 h2 h3 h4 h5 h6 h7
    simp [h1, h2, h3, h4, h5, h6, h7]
  · intro k hk
    have hc : createHypreStructuredSolver n solver_type layout p =
        buildSolver n layout k p := by
      unfold nameKind at hk
      unfold createHypreStructuredSolver
      split_ifs at hk with h1 h2 h3 h4 h5 h6 h7
      · simp only [Option.some.injEq] at hk; subst hk; simp [h1]
      · simp only [Option.some.injEq] at hk; subst hk; simp [h1, h2]
      · simp only [Option.some.injEq] at hk; subst hk; simp [h1, h2, h3]
      · simp only [Option.some.injEq] at hk; subst hk; simp [h1, h2, h3, h4]
      · simp only [Option.some.injEq] at hk; subst hk
        simp [h1, h2, h3, h4, h5]
      · simp only [Option.some.injEq] at hk; subst hk
        simp [h1, h2, h3, h4, h5, h6]
      · simp only [Option.some.injEq] at hk; subst hk
        simp [h1, h2, h3, h4, h5, h6, h7]
    rw [hc]
    exact buildSolver_spec layout k p

/-- Witness for C1 (amended): "PCG" with `is_preconditioner = false`
yields a PCG solver, and the unknown name "CG" yields
`std::runtime_error("Invalid solver type")`. -/
theorem createHypreStructuredSolver_dispatch_witness :
    (∃ s, (createHypreStructuredSolver 3 "PCG" exLayout false).1 = .ok s ∧
          s.kind = .PCG ∧ s.is_preconditioner = false) ∧
    (createHypreStructuredSolver 3 "CG" exLayout false).1 =
      .error (.runtimeError "Invalid solver type") :=
  ⟨((createHypreStructuredSolver_dispatch "PCG" exLayout false).2 .PCG
      rfl).1 rfl,
   (createHypreStructuredSolver_dispatch "CG" exLayout false).1 rfl⟩

/-- Counterexample to C1 as stated: "Diagonal" is one of the seven
names, yet the factory call with it (at its default
`is_preconditioner = false`) returns no solver of the matching class;
it throws `std::logic_error`, which is also not the claimed
`std::runtime_error("Invalid solver type")`. -/
theorem createHypreStructuredSolver_diagonal_cex :
    (createHypreStructuredSolver 3 "Diagonal" exLayout false).1 =
      .error (.logicError "Diagonal preconditioner cannot be used as a solver") ∧
    (createHypreStructuredSolver 3 "Diagonal" exLayout false).1 ≠
      .error (.runtimeError "Invalid solver type") := by
  constructor
  · rfl
  · rw [show (createHypreStructuredSolver 3 "Diagonal" exLayout false).1 =
        .error (.logicError "Diagonal preconditioner cannot be used as a solver")
      from rfl]
    simp

/-- C2 (amended): each of PCG, GMRES, BiCGSTAB, PFMG, SMG and Jacobi is
constructible through the factory as an outer linear solver
(`is_preconditioner = false`) without throwing; Diagonal is not - as an
outer solver its constructor throws `std::logic_error` - and is
constructible only with `is_preconditioner = true`. -/
theorem factory_outer_solvers (layout : ArrayLayout 3) :
    (∀ k : SolverKind, k ≠ .Diagonal →
      ∃ s, (createHypreStructuredSolver 3 (kindName k) layout false).1 = .ok s ∧
           s.kind = k ∧ s.is_preconditioner = false) ∧
    (createHypreStructuredSolver 3 "Diagonal" layout false).1 =
      .error (.logicError "Diagonal preconditioner cannot be used as a solver") ∧
    (∃ s, (createHypreStructuredSolver 3 "Diagonal" layout true).1 = .ok s ∧
          s.kind = .Diagonal ∧ s.is_preconditioner = true) := by
  refine ⟨?_, rfl, ⟨_, rfl, rfl, rfl⟩⟩
  intro k hk
  cases k
  case Diagonal => exact absurd rfl hk
  all_goals exact ⟨_, rfl, rfl, rfl⟩

/-- Witness for C2 (amended): SMG is constructible as an outer solver
at the concrete layout `exLayout`. -/
theorem factory_outer_solvers_witness :
    ∃ s, (createHypreStructuredSolver 3 (kindName .SMG) exLayout false).1 =
          .ok s ∧ s.kind = .SMG ∧ s.is_preconditioner = false :=
  (factory_outer_solvers exLayout).1 .SMG (by simp)

/-- Counterexample to C2 as stated: the seventh listed solver type,
Diagonal, cannot be constructed through the factory as an outer linear
solver - with `is_preconditioner = false` it throws `std::logic_error`
instead of succeeding. -/
theorem factory_diagonal_outer_cex :
    (createHypreStructuredSolver 2 "Diagonal" exLayout2 false).1 =
      .error (.logicError "Diagonal preconditioner cannot be used as a solver") := by
  rfl

/-
  C6: setPreconditioner.
-/

/-- C6 (amended): on a non-preconditioner solver, `setPreconditioner`
with a pointer `p` that is not a preconditioner throws
`std::logic_error("Not a preconditioner")` and leaves the stored
preconditioner (and all state) unchanged; with a genuine preconditioner
`p` it first stores `p`, and then for the Krylov classes PCG, GMRES and
BiCGSTAB installs it into the underlying HYPRE solver and returns
normally, while for PFMG, SMG and Jacobi the class-specific
`setPreconditionerImpl` throws `std::logic_error` - after `p` has
already been stored. -/
theorem setPreconditioner_stores_then_installs (s : Solver) (p : PrecondRef)
    (hs : s.is_preconditioner = false) :
    (p.is_preconditioner = false →
      setPreconditioner s p =
        ⟨some (.logicError "Not a preconditioner"), s, []⟩) ∧
    (p.is_preconditioner = true →
      ((s.kind = .PCG ∨ s.kind = .GMRES ∨ s.kind = .BiCGSTAB) →
        setPreconditioner s p =
          ⟨none, { s with preconditioner := some p },
           [.solverSetPrecond s.kind p.kind]⟩) ∧
      ((s.kind = .PFMG ∨ s.kind = .SMG ∨ s.kind = .Jacobi) →
        ∃ m, setPreconditioner s p =
          ⟨some (.logicError m), { s with preconditioner := some p }, []⟩)) := by
  refine ⟨fun hp => ?_, fun hp => ⟨fun hk => ?_, fun hk => ?_⟩⟩
  · unfold setPreconditioner
    rw [if_neg (by rw [hs]; exact Bool.false_ne_true)]
    rw [if_pos (by rw [hp]; rfl)]
  · rcases hk with h | h | h <;>
      simp [setPreconditioner, setPreconditionerImpl, hs, hp, h]
  · rcases hk with h | h | h
    · exact ⟨"HYPRE PFMG solver does not support preconditioning.",
        by simp [setPreconditioner, setPreconditionerImpl, hs, hp, h]⟩
    · exact ⟨"HYPRE SMG solver does not support preconditioning.",
        by simp [setPreconditioner, setPreconditionerImpl, hs, hp, h]⟩
    · exact ⟨"HYPRE Jacobi solver does not support preconditioning.",
        by simp [setPreconditioner, setPreconditionerImpl, hs, hp, h]⟩

/-- Witness for C6 (amended): on the concrete PCG outer solver, a
Diagonal preconditioner is stored and installed, and a
non-preconditioner argument is rejected with state unchanged. -/
theorem setPreconditioner_stores_then_installs_witness :
    setPreconditioner exPCG exDiagRef =
      ⟨none, { exPCG with preconditioner := some exDiagRef },
       [.solverSetPrecond exPCG.kind exDiagRef.kind]⟩ ∧
    setPreconditioner exPCG exOuterRef =
      ⟨some (.logicError "Not a preconditioner"), exPCG, []⟩ :=
  ⟨((setPreconditioner_stores_then_installs exPCG exDiagRef rfl).2 rfl).1
      (Or.inl rfl),
   (setPreconditioner_stores_then_installs exPCG exOuterRef rfl).1 rfl⟩

/-- Counterexample to C6 as stated: `exPFMG` is a non-preconditioner
solver and `exDiagRef` satisfies `isPreconditioner()`, yet
`setPreconditioner` does not succeed: the PFMG implementation throws
`std::logic_error` (after the pointer has been stored). -/
theorem setPreconditioner_pfmg_cex :
    exPFMG.is_preconditioner = false ∧
    exDiagRef.is_preconditioner = true ∧
    (setPreconditioner exPFMG exDiagRef).thrown =
      some (.logicError "HYPRE PFMG solver does not support preconditioning.") ∧
    (setPreconditioner exPFMG exDiagRef).state.preconditioner =
      some exDiagRef :=
  ⟨rfl, rfl, rfl, rfl⟩

/-
  C7: the frame effect of solve.
-/

/-- C7 (amended): on a non-preconditioner solver with scalar arrays,
`solve` reads `b` but never writes it, and overwrites the entries of
`x` over the owned index space with the values HYPRE returned for the
solution vector.  When the array memory space is host-accessible the
host mirror aliases `x` and these owned entries are the only ones
modified; when it is not, the final full-extent copy-back from the
freshly allocated (uninitialized) host mirror also overwrites the
non-owned (ghost) entries of `x` with the mirror allocation's
unspecified contents. -/
theorem solve_reads_b_writes_owned_x {n : Nat} {S : Type} (s : Solver)
    (env : SolveEnv n S) (b x : CajitaArray n S)
    (hs : s.is_preconditioner = false) (hk : s.kind ≠ .Diagonal)
    (hb : b.dofsPerEntity = 1) (hx : x.dofsPerEntity = 1) :
    (solve s env b x).thrown = none ∧
    (solve s env b x).b = b ∧
    (∀ i, env.owned i = true → (solve s env b x).x.view i = env.hypreX i) ∧
    (env.sameSpace = true →
      ∀ i, env.owned i = false → (solve s env b x).x.view i = x.view i) ∧
    (env.sameSpace = false →
      ∀ i, env.owned i = false →
        (solve s env b x).x.view i = env.mirrorJunk i) := by
  have hsolve : solve s env b x =
      ⟨none, b,
       { x with view := fun i =>
           if env.owned i then env.hypreX i
           else if env.sameSpace then x.view i else env.mirrorJunk i },
       [.vectorInitialize .rhs, .vectorSetBoxValues .rhs, .vectorAssemble .rhs,
        .solverSolve s.kind, .vectorGetBoxValues .lhs]⟩ := by
    unfold solve
    rw [if_neg (by rw [hs]; exact Bool.false_ne_true)]
    rw [if_neg (by simp [hb, hx])]
    cases hk2 : s.kind <;> simp_all [solveImpl]
  refine ⟨by rw [hsolve], by rw [hsolve], fun i hi => ?_, fun hss i hi => ?_,
    fun hss i hi => ?_⟩
  · rw [hsolve]
    simp [hi]
  · rw [hsolve]
    simp [hi, hss]
  · rw [hsolve]
    simp [hi, hss]

/-- Witness for C7 (amended): on the concrete device-space environment
`exEnvDevice`, `solve` succeeds, leaves `b` untouched, writes HYPRE
solution value 7 at the owned index 0, and writes the mirror junk value
99 at the ghost index 2. -/
theorem solve_reads_b_writes_owned_x_witness :
    (solve exPCG exEnvDevice exArrB exArrX).thrown = none ∧
    (solve exPCG exEnvDevice exArrB exArrX).b = exArrB ∧
    (solve exPCG exEnvDevice exArrB exArrX).x.view (fun _ => 0) = 7 ∧
    (solve exPCG exEnvDevice exArrB exArrX).x.view exGhostIdx = 99 :=
  ⟨(solve_reads_b_writes_owned_x exPCG exEnvDevice exArrB exArrX rfl
      (by simp [exPCG]) rfl rfl).1,
   (solve_reads_b_writes_owned_x exPCG exEnvDevice exArrB exArrX rfl
      (by simp [exPCG]) rfl rfl).2.1,
   (solve_reads_b_writes_owned_x exPCG exEnvDevice exArrB exArrX rfl
      (by simp [exPCG]) rfl rfl).2.2.1 (fun _ => 0) (by decide),
   (solve_reads_b_writes_owned_x exPCG exEnvDevice exArrB exArrX rfl
      (by simp [exPCG]) rfl rfl).2.2.2.2 rfl exGhostIdx (by decide)⟩

/-- Counterexample to C7 as stated: a concrete `solve` call on a
non-host memory space succeeds and modifies an entry of `x` outside the
owned index space - the ghost entry at local index 2 changes from 5 to
the uninitialized-mirror value 99 - so the owned entries are not the
only caller-visible state `solve` modifies. -/
theorem solve_modifies_ghost_cex :
    (solve exPCG exEnvDevice exArrB exArrX).thrown = none ∧
    exEnvDevice.owned exGhostIdx = false ∧
    exArrX.view exGhostIdx = 5 ∧
    (solve exPCG exEnvDevice exArrB exArrX).x.view exGhostIdx = 99 :=
  ⟨rfl, rfl, rfl, rfl⟩

end Cajita
